import Mathlib

/-!
Verification of the conversational company-research backend.

This file gives a shallow embedding, in Lean 4, of the Python backend
(`input_validator.py`, `error_handler.py`, `conversation_manager.py`,
`database.py`, `llm_enhanced.py`) and proves or refutes the frozen claims
about it.

Conventions of the embedding:
* Python strings are modelled as `List Char` (`PyStr`).  The helpers
  `pyLower`, `pyStrip`, `containsSub`, `replaceAll`, ... mirror the Python
  `str` methods used by the code, restricted to the ASCII behaviour the
  backend relies on (the repository only manipulates ASCII message text).
* Python's `re` usage is modelled by executable matchers specialised to the
  exact patterns occurring in the source (`re.search` of a literal is
  substring search, `A.*B` is an ordered two-literal search with `.` not
  matching a newline, and the four company-name templates are run by a small
  backtracking matcher `rxMatch` that reproduces greedy/lazy semantics).
* The SQLite store is modelled as explicit in-memory tables with a logical
  clock standing for `CURRENT_TIMESTAMP` / `datetime.utcnow()` (strictly
  monotonic, as one save per logical instant).
* Exceptions are modelled by `Except PyExc`; the LLM and web-search
  collaborators are oracles supplied in an `Env` (the spec itself treats them
  as black boxes), indexed by the attempt number for retried calls.
-/

/-- Python strings are modelled as lists of characters. -/
abbrev PyStr := List Char

/-- Coercion from a Lean string literal to the model's string type. -/
def str (s : String) : PyStr := s.toList

/-- Whitespace as recognised by Python's `\s`, `str.strip()` and
`str.split()` for the ASCII range: space, tab, newline, carriage return,
vertical tab and form feed. -/
def isPyWs (c : Char) : Bool :=
  c = ' ' || c = '\t' || c = '\n' || c = '\r' || c = '\x0b' || c = '\x0c'

/-- Python `str.lower()` (ASCII range). -/
def pyLower (s : PyStr) : PyStr := s.map Char.toLower

/-- Python `str.strip()` with no argument: drop leading and trailing
whitespace. -/
def pyStrip (s : PyStr) : PyStr :=
  ((s.dropWhile isPyWs).reverse.dropWhile isPyWs).reverse

/-- Python `needle in hay` for strings: substring containment. -/
def containsSub (hay needle : PyStr) : Bool :=
  match hay with
  | [] => needle.isEmpty
  | _ :: t => needle.isPrefixOf hay || containsSub t needle

/-- Python `str.startswith`. -/
def pyStartsWith (s pre : PyStr) : Bool := pre.isPrefixOf s

/-- Python `str.capitalize()`: first character uppercased, the rest
lowercased. -/
def pyCapitalize (s : PyStr) : PyStr :=
  match s with
  | [] => []
  | c :: t => c.toUpper :: t.map Char.toLower

/-- Helper loop of `replaceAll`; the fuel starts at the length of the
string, which suffices because every step consumes at least one character
of the subject (the pattern is nonempty in this branch). -/
def replaceAllGo (old new : PyStr) : Nat → PyStr → PyStr
  | _, [] => []
  | 0, s => s
  | fuel + 1, c :: t =>
      if old.isPrefixOf (c :: t) then
        new ++ replaceAllGo old new fuel ((c :: t).drop old.length)
      else
        c :: replaceAllGo old new fuel t

/-- Python `str.replace(old, new)`: replace every non-overlapping
occurrence, scanning left to right.  An empty pattern interleaves the
replacement around every character, as in Python. -/
def replaceAll (s old new : PyStr) : PyStr :=
  if old.isEmpty then new ++ s.foldr (fun c acc => c :: new ++ acc) []
  else replaceAllGo old new s.length s

/-- Occurrence test of `pat` at offset `i` of `hay`. -/
def occursAt (pat hay : PyStr) (i : Nat) : Bool := pat.isPrefixOf (hay.drop i)

/-- Model of `re.search` for the pattern `A.*B` (no `re.DOTALL`, so `.`
does not match a newline): some occurrence of `A` followed, after a
newline-free gap, by an occurrence of `B`. -/
def reSearchDotStar (a b hay : PyStr) : Bool :=
  (List.range (hay.length + 1)).any fun i =>
    a.isPrefixOf (hay.drop i) &&
    (let rest := (hay.drop i).drop a.length
     (List.range (rest.length + 1)).any fun k =>
       (rest.take k).all (fun c => c != '\n') && b.isPrefixOf (rest.drop k))

/-- Existence of a run of `n` consecutive characters satisfying `p`,
modelling `re.search` of a character class repeated `{n,}`. -/
def hasRun (p : Char → Bool) (n : Nat) (s : PyStr) : Bool :=
  (List.range (s.length + 1)).any fun i => ((s.drop i).take n).all p && n ≤ s.length - i

/-- Count of a character in a string, modelling `str.count` for
single-character arguments. -/
def countChar (s : PyStr) (c : Char) : Nat := s.count c

/-!  ## `input_validator.py` — class `InputValidator` -/

namespace InputValidator

/-- Out-of-scope denylist (`OUT_OF_SCOPE_KEYWORDS` in the source). -/
def OUT_OF_SCOPE_KEYWORDS : List PyStr :=
  [str "stock price", str "predict", str "forecast", str "guarantee",
   str "legal advice", str "financial advice", str "investment",
   str "personal data", str "private information", str "hack",
   str "illegal", str "unethical"]

/-- Lowercase consonants, the character class of the gibberish heuristic
`[bcdfghjklmnpqrstvwxyz]{6,}`. -/
def isConsonant (c : Char) : Bool :=
  c = 'b' || c = 'c' || c = 'd' || c = 'f' || c = 'g' || c = 'h' || c = 'j' ||
  c = 'k' || c = 'l' || c = 'm' || c = 'n' || c = 'p' || c = 'q' || c = 'r' ||
  c = 's' || c = 't' || c = 'v' || c = 'w' || c = 'x' || c = 'y' || c = 'z'

/-- Test for `re.match(r'^test\d*$', s)`. -/
def matchesTestDigits (s : PyStr) : Bool :=
  pyStartsWith s (str "test") && (s.drop 4).all Char.isDigit

/-- Test for `re.match(r'^\d+$', s)`: only digits. -/
def matchesOnlyDigits (s : PyStr) : Bool :=
  !s.isEmpty && s.all Char.isDigit

/-- Test for `re.match(r'^[^a-zA-Z0-9\s]+$', s)`: only special characters. -/
def matchesOnlySpecial (s : PyStr) : Bool :=
  !s.isEmpty && s.all fun c => !(c.isAlphanum || isPyWs c)

/-- Model of `InputValidator.validate_company_name`.  Returns
`(is_valid, message, suggestions)`.  The four anchored junk patterns
`^test\d*$`, `^asdf+`, `^qwerty`, `^\d+$`, `^[^a-zA-Z0-9\s]+$` are checked
with `re.match` against the lowercased name, which for these patterns is
equivalent to the prefix/character tests used here. -/
def validate_company_name (name : PyStr) : Bool × PyStr × List PyStr :=
  if name.isEmpty || (pyStrip name).isEmpty then
    (false, str "Please provide a company name.", [])
  else
    let name := pyStrip name
    if name.length < 2 then
      (false, str "Company name is too short. Please provide a valid company name.", [])
    else if name.length > 100 then
      (false, str "Company name is too long. Please provide a shorter name.", [])
    else if hasRun isConsonant 6 (pyLower name) then
      (false, str "This doesn\x27t look like a valid company name. Could you clarify?", [])
    else if matchesTestDigits (pyLower name) || pyStartsWith (pyLower name) (str "asdf") ||
        pyStartsWith (pyLower name) (str "qwerty") || matchesOnlyDigits (pyLower name) ||
        matchesOnlySpecial (pyLower name) then
      (false, str "This doesn\x27t appear to be a real company name. Please provide a valid company name.", [])
    else
      (true, str "Valid company name.", [])

/-- Model of `InputValidator.detect_ambiguity`.  Returns
`(is_ambiguous, reason, clarifying_questions)`. -/
def detect_ambiguity (prompt : PyStr) : Bool × PyStr × List PyStr :=
  let prompt_lower := pyStrip (pyLower prompt)
  if prompt.length < 5 then
    (true, str "Your request is very brief.",
     [str "What would you like me to help you with?",
      str "Are you looking to research a company?",
      str "Would you like to see what I can do?"])
  else if [str "it", str "that", str "this", str "them", str "those"].any
      (fun p => pyStartsWith prompt_lower p) then
    (true, str "I\x27m not sure what you\x27re referring to.",
     [str "Which company are you asking about?",
      str "Could you be more specific?"])
  else if ([str "something", str "anything", str "stuff", str "things",
      str "help me", str "i need", str "can you"].any
        (fun t => containsSub prompt_lower t)) && prompt.length < 30 then
    (true, str "Your request is a bit vague.",
     [str "What specific company would you like to research?",
      str "What information are you looking for?",
      str "Would you like to see some examples of what I can do?"])
  else if countChar prompt '?' > 2 then
    (true, str "You\x27ve asked multiple questions.",
     [str "Which question would you like me to answer first?",
      str "Let\x27s tackle these one at a time. What\x27s most important?"])
  else
    (false, [], [])

/-- Alternatives offered with every out-of-scope keyword rejection. -/
def capabilityAlternatives : List PyStr :=
  [str "I can research companies and generate account plans",
   str "I can analyze competitors and market positioning",
   str "I can help you compare multiple companies"]

/-- Alternatives offered with every impossible-request rejection. -/
def impossibleAlternatives : List PyStr :=
  [str "Would you like to research a company instead?",
   str "I can help you analyze publicly available business data."]

/-- Model of `InputValidator.is_within_capabilities`.  Returns
`(is_capable, message, alternatives)`.  The four `impossible_patterns`
regexes are modelled by `reSearchDotStar` / substring alternations exactly
as they decompose: `predict.*future`, `guarantee|promise`,
`hack|crack|break`, `personal.*data|private.*information`. -/
def is_within_capabilities (prompt : PyStr) : Bool × PyStr × List PyStr :=
  let prompt_lower := pyLower prompt
  match OUT_OF_SCOPE_KEYWORDS.find? (fun k => containsSub prompt_lower k) with
  | some keyword =>
      (false,
       str "I can\x27t help with " ++ keyword ++
         str ". I\x27m designed for company research and account planning.",
       capabilityAlternatives)
  | none =>
      if reSearchDotStar (str "predict") (str "future") prompt_lower then
        (false, str "I can\x27t predict the future, but I can analyze current trends.",
         impossibleAlternatives)
      else if containsSub prompt_lower (str "guarantee") ||
          containsSub prompt_lower (str "promise") then
        (false, str "I can\x27t make guarantees, but I can provide data-driven insights.",
         impossibleAlternatives)
      else if containsSub prompt_lower (str "hack") ||
          containsSub prompt_lower (str "crack") ||
          containsSub prompt_lower (str "break") then
        (false, str "I can\x27t help with that. I\x27m designed for legitimate business research.",
         impossibleAlternatives)
      else if reSearchDotStar (str "personal") (str "data") prompt_lower ||
          reSearchDotStar (str "private") (str "information") prompt_lower then
        (false, str "I only work with publicly available business information.",
         impossibleAlternatives)
      else
        (true, [], [])

/-- Collapse of every whitespace run to a single space, modelling
`re.sub(r'\s+', ' ', text)`; the flag records whether the previous
character belonged to a run already replaced. -/
def collapseWsAux : Bool → PyStr → PyStr
  | _, [] => []
  | prevWs, c :: rest =>
      if isPyWs c then
        if prevWs then collapseWsAux true rest
        else ' ' :: collapseWsAux true rest
      else c :: collapseWsAux false rest

/-- Model of `InputValidator.sanitize_input`: collapse whitespace, trim,
drop control characters (code point below 32 other than newline, carriage
return and tab), cap at 1000 characters. -/
def sanitize_input (text : PyStr) : PyStr :=
  if text.isEmpty then []
  else
    let text := collapseWsAux false text
    let text := pyStrip text
    let text := text.filter fun c => c.toNat ≥ 32 || c = '\n' || c = '\r' || c = '\t'
    text.take 1000

/-- Model of `InputValidator.validate_prompt`.  Returns
`(is_valid, message, suggestions)` with `suggestions = none` standing for
Python's `None`. -/
def validate_prompt (prompt : PyStr) : Bool × PyStr × Option (List PyStr) :=
  let prompt := sanitize_input prompt
  if prompt.isEmpty then
    (false, str "Please provide a message.", some [str "What would you like to know?"])
  else
    let cap := is_within_capabilities prompt
    if !cap.1 then (false, cap.2.1, some cap.2.2)
    else
      let amb := detect_ambiguity prompt
      if amb.1 then (false, amb.2.1, some amb.2.2)
      else (true, str "Valid prompt.", none)

end InputValidator

/-!  ## Regex matcher for the company-name templates

The four patterns of `extract_company_name_from_prompt` are built from:
a case-insensitive literal, greedy `\s+`, the lazy capturing group
`([a-zA-Z0-9\s&.]+?)`, the terminator `(?:\s|$|\.)`, one greedy optional
group and one two-literal alternation.  `rxMatch` runs a piece list
against a suffix of the subject with Python's backtracking order (greedy
pieces try longest first, lazy pieces shortest first), and `rxSearch`
scans start positions left to right as `re.search` does. -/

/-- Pieces of the regular expressions used by the extractor. -/
inductive RxPiece
  | lit (cs : PyStr)
  | wsPlus
  | grpLazyPlus
  | termAlt
  | optSeq (ps : List RxPiece)
  | altLit (a b : PyStr)

/-- Character class `[a-zA-Z0-9\s&.]` of the capturing group. -/
def inCaptureClass (c : Char) : Bool :=
  c.isAlphanum || isPyWs c || c = '&' || c = '.'

/-- Case-insensitive literal prefix test (the patterns are compiled with
`re.IGNORECASE`). -/
def litPrefixCI (cs s : PyStr) : Bool :=
  cs.length ≤ s.length && pyLower (s.take cs.length) = pyLower cs

/-- Backtracking matcher: `rxMatch fuel pieces s cap` matches `pieces`
against a prefix of `s` carrying the lazy group's capture in `cap`, and
returns the capture of the first successful parse in backtracking order
(or `none` when there is no match).  The fuel only needs to cover the
recursion depth, which is bounded by the subject length plus the piece
count; callers pass a generous bound. -/
def rxMatch : Nat → List RxPiece → PyStr → Option PyStr → Option (Option PyStr)
  | 0, _, _, _ => none
  | _ + 1, [], _, cap => some cap
  | fuel + 1, p :: rest, s, cap =>
      match p with
      | .lit cs =>
          if litPrefixCI cs s then rxMatch fuel rest (s.drop cs.length) cap else none
      | .wsPlus =>
          let m := (s.takeWhile isPyWs).length
          (List.range m).findSome? fun i => rxMatch fuel rest (s.drop (m - i)) cap
      | .grpLazyPlus =>
          let r := (s.takeWhile inCaptureClass).length
          (List.range r).findSome? fun i =>
            rxMatch fuel rest (s.drop (i + 1)) (some (s.take (i + 1)))
      | .termAlt =>
          (match s with
           | c :: t => if isPyWs c then rxMatch fuel rest t cap else none
           | [] => none) <|>
          (if s.isEmpty then rxMatch fuel rest s cap else none) <|>
          (match s with
           | c :: t => if c = '.' then rxMatch fuel rest t cap else none
           | [] => none)
      | .optSeq ps =>
          rxMatch fuel (ps ++ rest) s cap <|> rxMatch fuel rest s cap
      | .altLit a b =>
          (if litPrefixCI a s then rxMatch fuel rest (s.drop a.length) cap else none) <|>
          (if litPrefixCI b s then rxMatch fuel rest (s.drop b.length) cap else none)

/-- Model of `re.search`: try each start position from the left and return
the first match's capture. -/
def rxSearch (pieces : List RxPiece) (s : PyStr) : Option (Option PyStr) :=
  (List.range (s.length + 1)).findSome? fun i =>
    rxMatch (s.length + 32) pieces (s.drop i) none

namespace InputValidator

/-- Pattern `research\s+([a-zA-Z0-9\s&.]+?)(?:\s|$|\.)`. -/
def pat_research : List RxPiece :=
  [.lit (str "research"), .wsPlus, .grpLazyPlus, .termAlt]

/-- Pattern `tell me about\s+([a-zA-Z0-9\s&.]+?)(?:\s|$|\.)`. -/
def pat_tell_me_about : List RxPiece :=
  [.lit (str "tell me about"), .wsPlus, .grpLazyPlus, .termAlt]

/-- Pattern `look up\s+([a-zA-Z0-9\s&.]+?)(?:\s|$|\.)`. -/
def pat_look_up : List RxPiece :=
  [.lit (str "look up"), .wsPlus, .grpLazyPlus, .termAlt]

/-- Pattern `find\s+(?:information\s+(?:on|about)\s+)?([a-zA-Z0-9\s&.]+?)(?:\s|$|\.)`. -/
def pat_find : List RxPiece :=
  [.lit (str "find"), .wsPlus,
   .optSeq [.lit (str "information"), .wsPlus, .altLit (str "on") (str "about"), .wsPlus],
   .grpLazyPlus, .termAlt]

/-- Model of `InputValidator.extract_company_name_from_prompt`: try the
four templates in order, return the stripped capture of the first that
matches, `none` when none does. -/
def extract_company_name_from_prompt (prompt : PyStr) : Option PyStr :=
  let prompt := pyStrip prompt
  match rxSearch pat_research prompt with
  | some cap => some (pyStrip (cap.getD []))
  | none =>
  match rxSearch pat_tell_me_about prompt with
  | some cap => some (pyStrip (cap.getD []))
  | none =>
  match rxSearch pat_look_up prompt with
  | some cap => some (pyStrip (cap.getD []))
  | none =>
  match rxSearch pat_find prompt with
  | some cap => some (pyStrip (cap.getD []))
  | none => none

end InputValidator

/-!  ## `error_handler.py` — class `ErrorHandler` -/

/-- Python exception, reduced to what the code inspects: the class name
(`type(error).__name__`) and the message (`str(error)`). -/
structure PyExc where
  typeName : PyStr
  msg : PyStr
  deriving DecidableEq

/-- Decidable equality of modelled Python call outcomes. -/
instance {ε α : Type _} [DecidableEq ε] [DecidableEq α] : DecidableEq (Except ε α)
  | .error e₁, .error e₂ =>
      if h : e₁ = e₂ then .isTrue (congrArg Except.error h)
      else .isFalse fun hc => h (Except.error.inj hc)
  | .error _, .ok _ => .isFalse fun hc => Except.noConfusion hc
  | .ok _, .error _ => .isFalse fun hc => Except.noConfusion hc
  | .ok a₁, .ok a₂ =>
      if h : a₁ = a₂ then .isTrue (congrArg Except.ok h)
      else .isFalse fun hc => h (Except.ok.inj hc)

namespace ErrorHandler

/-- Loop of `retry_with_exponential_backoff`.  The side-effecting thunk
`func` is modelled as a map from the invocation index to that invocation's
outcome.  `remaining` counts the loop iterations still to run (including
the current one), so the condition `attempt < max_retries` of the source
is `remaining ≠ 0` after the current iteration is peeled off.  Returns the
final outcome, the number of invocations made, and the list of delays
slept (in seconds, exact rational arithmetic).  The `remaining = 0` base
case is Python's `raise last_exception` reached with no iteration having
run, which raises a `TypeError` on `None`; it is unreachable from
`retry_with_exponential_backoff`. -/
def retryGo (func : Nat → Except PyExc α) (exponential_base max_delay : ℚ) :
    Nat → Nat → ℚ → List ℚ → Except PyExc α × Nat × List ℚ
  | 0, attempt, _, slept =>
      (.error ⟨str "TypeError", str "exceptions must derive from BaseException"⟩,
       attempt, slept.reverse)
  | remaining + 1, attempt, delay, slept =>
      match func attempt with
      | .ok v => (.ok v, attempt + 1, slept.reverse)
      | .error e =>
          if remaining = 0 then (.error e, attempt + 1, slept.reverse)
          else
            retryGo func exponential_base max_delay remaining (attempt + 1)
              (min (delay * exponential_base) max_delay) (delay :: slept)

/-- Model of `ErrorHandler.retry_with_exponential_backoff`: the loop
`for attempt in range(max_retries + 1)` returns the first success, sleeps
`delay` and doubles it (capped) after each failed attempt except the last,
and re-raises the last exception after the final attempt. -/
def retry_with_exponential_backoff (func : Nat → Except PyExc α)
    (max_retries : Nat := 3) (initial_delay : ℚ := 1) (max_delay : ℚ := 10)
    (exponential_base : ℚ := 2) : Except PyExc α × Nat × List ℚ :=
  retryGo func exponential_base max_delay (max_retries + 1) 0 initial_delay []

/-- Canned user-facing message for API-key errors. -/
def msgApiKey : PyStr :=
  str "I\x27m having trouble connecting to my AI brain. Please check that your API key is configured correctly in the .env file."

/-- Canned user-facing message for network errors. -/
def msgNetwork : PyStr :=
  str "I\x27m having trouble connecting to the internet. Please check your connection and try again."

/-- Canned user-facing message for rate limiting. -/
def msgRateLimit : PyStr :=
  str "I\x27m being rate limited. Please wait a moment and try again."

/-- Canned user-facing message for invalid input. -/
def msgInvalid : PyStr :=
  str "There was an issue with your request. Could you try rephrasing it?"

/-- Canned user-facing message for JSON parsing errors. -/
def msgJson : PyStr :=
  str "I had trouble understanding the response. Let me try again."

/-- Canned user-facing message for database errors. -/
def msgDatabase : PyStr :=
  str "I encountered a database error. Your data should be safe, but please try again."

/-- Canned generic fallback message. -/
def msgGeneric : PyStr :=
  str "I encountered an unexpected error. Please try again, and if the problem persists, check the console for details."

/-- The fixed set of user-friendly messages `get_user_friendly_error_message`
can produce. -/
def cannedErrorMessages : List PyStr :=
  [msgApiKey, msgNetwork, msgRateLimit, msgInvalid, msgJson, msgDatabase, msgGeneric]

/-- Model of `ErrorHandler.get_user_friendly_error_message`: classify the
error by sniffing its lowercased text and its type name, in the source's
order. -/
def get_user_friendly_error_message (error : PyExc) : PyStr :=
  let error_str := pyLower error.msg
  let error_type := error.typeName
  if containsSub error_str (str "api key") || containsSub error_str (str "authentication") ||
      containsSub error_str (str "unauthorized") then msgApiKey
  else if containsSub error_str (str "connection") || containsSub error_str (str "timeout") ||
      containsSub error_str (str "network") then msgNetwork
  else if containsSub error_str (str "rate limit") ||
      containsSub error_str (str "too many requests") then msgRateLimit
  else if containsSub error_str (str "invalid") ||
      containsSub error_str (str "validation") then msgInvalid
  else if containsSub error_str (str "json") || error_type = str "JSONDecodeError" then msgJson
  else if containsSub error_str (str "database") || containsSub error_str (str "sqlite") then
    msgDatabase
  else msgGeneric

/-- Every classified message is one of the canned messages. -/
theorem get_user_friendly_error_message_mem_canned (e : PyExc) :
    get_user_friendly_error_message e ∈ cannedErrorMessages := by
  unfold get_user_friendly_error_message cannedErrorMessages
  dsimp only
  split
  · simp
  split
  · simp
  split
  · simp
  split
  · simp
  split
  · simp
  split <;> simp

end ErrorHandler

/-!  ## `conversation_manager.py` — class `ConversationManager` -/

namespace ConversationManager

/-- One entry of the history list returned by `get_conversation_history`
(a Python dict with keys `role`, `content`, `intent`, `persona`,
`timestamp`, `metadata`).  The metadata dict is an association list. -/
structure HistMsg where
  role : PyStr
  content : PyStr
  intent : Option PyStr
  persona : Option PyStr
  timestamp : Nat
  metadata : List (PyStr × PyStr)
  deriving DecidableEq

/-- Row of the `conversations` table.  `metadata` is `none` for SQL `NULL`
(the JSON round trip `json.dumps`/`json.loads` of a nonempty dict is the
identity in the model). -/
structure ConvRow where
  rowid : Nat
  session_id : PyStr
  timestamp : Nat
  role : PyStr
  content : PyStr
  intent : Option PyStr
  persona : Option PyStr
  metadata : Option (List (PyStr × PyStr))
  deriving DecidableEq

/-- Row of the `user_sessions` table. -/
structure SessionRow where
  session_id : PyStr
  created_at : Nat
  last_active : Nat
  interaction_count : Nat
  detected_persona : Option PyStr
  preferences : Option (List (PyStr × PyStr))
  deriving DecidableEq

/-- The conversation store: both tables, the autoincrement counter and a
logical clock standing for `CURRENT_TIMESTAMP` (strictly monotonic —
every write happens at a fresh instant). -/
structure ConvDb where
  conversations : List ConvRow
  sessions : List SessionRow
  nextId : Nat
  clock : Nat
  deriving DecidableEq

/-- The empty store (freshly created tables). -/
def ConvDb.empty : ConvDb := ⟨[], [], 0, 0⟩

/-- Storage form of a turn's metadata: `json.dumps(metadata) if metadata
else None` — `None` and the (falsy) empty dict are stored as SQL `NULL`. -/
def metadataJson (metadata : Option (List (PyStr × PyStr))) :
    Option (List (PyStr × PyStr)) :=
  match metadata with
  | some m => if m.isEmpty then none else some m
  | none => none

/-- SQL `COALESCE(?, detected_persona)` with `?` bound to the new persona:
the new value when non-NULL, else the stored one. -/
def coalescePersona (persona old : Option PyStr) : Option PyStr :=
  match persona with
  | some p => some p
  | none => old

/-- Model of `ConversationManager.save_conversation_turn`: insert the turn
row, then upsert the session row (`ON CONFLICT(session_id) DO UPDATE SET
last_active = CURRENT_TIMESTAMP, interaction_count = interaction_count + 1,
detected_persona = COALESCE(?, detected_persona)`).  A `metadata` that is
`none` or the empty dict is stored as `NULL` (`json.dumps(metadata) if
metadata else None`). -/
def save_conversation_turn (db : ConvDb) (session_id role content : PyStr)
    (intent : Option PyStr := none) (persona : Option PyStr := none)
    (metadata : Option (List (PyStr × PyStr)) := none) : ConvDb :=
  let metadata_json : Option (List (PyStr × PyStr)) := metadataJson metadata
  let row : ConvRow :=
    { rowid := db.nextId, session_id := session_id, timestamp := db.clock,
      role := role, content := content, intent := intent, persona := persona,
      metadata := metadata_json }
  let sessions :=
    if db.sessions.any (fun s => s.session_id = session_id) then
      db.sessions.map fun s =>
        if s.session_id = session_id then
          { s with last_active := db.clock,
                   interaction_count := s.interaction_count + 1,
                   detected_persona := coalescePersona persona s.detected_persona }
        else s
    else
      db.sessions ++
        [{ session_id := session_id, created_at := db.clock, last_active := db.clock,
           interaction_count := 1, detected_persona := persona, preferences := none }]
  { conversations := db.conversations ++ [row], sessions := sessions,
    nextId := db.nextId + 1, clock := db.clock + 1 }

/-- Descending-timestamp comparison used to model `ORDER BY timestamp DESC`. -/
def tsDesc (a b : ConvRow) : Prop := b.timestamp ≤ a.timestamp

instance : DecidableRel tsDesc := fun a b => Nat.decLe b.timestamp a.timestamp

/-- Model of `ConversationManager.get_conversation_history`: select the
session's rows, order by timestamp descending, apply the limit, then
reverse into chronological order and read each row into a dict (a `NULL`
metadata reads back as the empty dict). -/
def get_conversation_history (db : ConvDb) (session_id : PyStr)
    (limit : Nat := 10) : List HistMsg :=
  let rows := db.conversations.filter fun r => r.session_id = session_id
  let rows := (rows.insertionSort tsDesc).take limit
  rows.reverse.map fun r =>
    { role := r.role, content := r.content, intent := r.intent,
      persona := r.persona, timestamp := r.timestamp,
      metadata := r.metadata.getD [] }

/-- Model of `ConversationManager.clear_conversation`. -/
def clear_conversation (db : ConvDb) (session_id : PyStr) : ConvDb :=
  { db with
    conversations := db.conversations.filter fun r => ¬ r.session_id = session_id,
    sessions := db.sessions.filter fun s => ¬ s.session_id = session_id }

/-- Persona constant strings. -/
def PERSONA_CONFUSED : PyStr := str "confused"

/-- Persona constant: efficient. -/
def PERSONA_EFFICIENT : PyStr := str "efficient"

/-- Persona constant: chatty. -/
def PERSONA_CHATTY : PyStr := str "chatty"

/-- Persona constant: edge case. -/
def PERSONA_EDGE_CASE : PyStr := str "edge_case"

/-- Persona constant: unknown. -/
def PERSONA_UNKNOWN : PyStr := str "unknown"

/-- Intent constant: research. -/
def INTENT_RESEARCH : PyStr := str "research"

/-- Intent constant: update. -/
def INTENT_UPDATE : PyStr := str "update"

/-- Intent constant: clarify. -/
def INTENT_CLARIFY : PyStr := str "clarify"

/-- Intent constant: chat. -/
def INTENT_CHAT : PyStr := str "chat"

/-- Intent constant: off topic. -/
def INTENT_OFF_TOPIC : PyStr := str "off_topic"

/-- Intent constant: help. -/
def INTENT_HELP : PyStr := str "help"

/-- Vague terms counted by the persona classifier. -/
def vague_terms : List PyStr :=
  [str "help", str "something", str "maybe", str "not sure",
   str "don\x27t know", str "what can", str "how do"]

/-- Off-topic indicator terms counted by the persona classifier. -/
def off_topic_terms : List PyStr :=
  [str "by the way", str "anyway", str "also", str "oh", str "hmm", str "interesting"]

/-- Direct-command verbs counted by the persona classifier. -/
def direct_commands : List PyStr :=
  [str "research", str "update", str "change", str "generate", str "find", str "show"]

/-- Core of the persona classifier, applied to the user-role turns.
Python's float arithmetic on these small metrics is modelled by exact
rational arithmetic. -/
def personaOfUserMessages (user_messages : List HistMsg) : PyStr :=
  if user_messages.length < 2 then PERSONA_UNKNOWN
  else
    let n := user_messages.length
    let avg_length : ℚ := ((user_messages.map fun m => m.content.length).sum : ℚ) / (n : ℚ)
    let question_count := (user_messages.filter fun m => containsSub m.content (str "?")).length
    let question_frac : ℚ := (question_count : ℚ) / (n : ℚ)
    let vague_count :=
      (user_messages.map fun m =>
        (vague_terms.filter fun t => containsSub (pyLower m.content) t).length).sum
    let off_topic_count :=
      (user_messages.map fun m =>
        (off_topic_terms.filter fun t => containsSub (pyLower m.content) t).length).sum
    let direct_count :=
      (user_messages.map fun m =>
        (direct_commands.filter fun c => pyStartsWith (pyLower m.content) c).length).sum
    if vague_count ≥ 2 ∨ question_frac > (0.6 : ℚ) then PERSONA_CONFUSED
    else if avg_length < 30 ∧ (direct_count : ℚ) ≥ (n : ℚ) * (0.7 : ℚ) then PERSONA_EFFICIENT
    else if avg_length > 100 ∨ off_topic_count ≥ 2 then PERSONA_CHATTY
    else if n > 5 ∧ question_frac > (0.8 : ℚ) then PERSONA_CONFUSED
    else PERSONA_UNKNOWN

/-- Model of `ConversationManager.detect_user_persona`: empty history is
`unknown`; otherwise the metrics are computed over the `role == "user"`
turns only. -/
def detect_user_persona (history : List HistMsg) : PyStr :=
  if history.isEmpty then PERSONA_UNKNOWN
  else personaOfUserMessages (history.filter fun m => m.role = str "user")

/-- Model of `ConversationManager.classify_intent`: keyword families in
fixed priority order, then the short-question fallback, then the
follow-up-after-assistant-question fallback, defaulting to research. -/
def classify_intent (prompt : PyStr) (history : List HistMsg) : PyStr :=
  let prompt_lower := pyStrip (pyLower prompt)
  if [str "what can you", str "how do i", str "help", str "capabilities",
      str "what do you do"].any (fun k => containsSub prompt_lower k) then INTENT_HELP
  else if [str "research", str "find information", str "look up", str "tell me about",
      str "analyze"].any (fun k => containsSub prompt_lower k) then INTENT_RESEARCH
  else if [str "update", str "change", str "modify", str "edit", str "set",
      str "fix"].any (fun k => containsSub prompt_lower k) then INTENT_UPDATE
  else if [str "what do you mean", str "can you explain", str "i don\x27t understand",
      str "clarify"].any (fun k => containsSub prompt_lower k) then INTENT_CLARIFY
  else if [str "weather", str "news", str "joke", str "story",
      str "how are you"].any (fun k => containsSub prompt_lower k) then INTENT_OFF_TOPIC
  else if prompt.length < 20 ∧ containsSub prompt (str "?") then INTENT_CHAT
  else if !history.isEmpty then
    match history.reverse.find? (fun m => m.role = str "assistant") with
    | some m => if containsSub m.content (str "?") then INTENT_CLARIFY else INTENT_RESEARCH
    | none => INTENT_RESEARCH
  else INTENT_RESEARCH

/-- Referring expressions replaced by `resolve_references`. -/
def references : List PyStr :=
  [str "it", str "that company", str "this company", str "the company",
   str "them", str "that one", str "this one"]

/-- Scan of the history, newest first, for the most recent assistant turn
whose (truthy) metadata has a `company_name` key; an assistant turn with
metadata lacking the key is skipped and the scan continues, as in the
source loop. -/
def findLastCompany (history : List HistMsg) : Option PyStr :=
  history.reverse.findSome? fun msg =>
    if msg.role = str "assistant" ∧ ¬ msg.metadata.isEmpty then
      msg.metadata.lookup (str "company_name")
    else none

/-- Model of `ConversationManager.resolve_references`: with a resolved
company in scope, each referring expression present in the (stale) initial
lowercasing of the prompt is replaced — in both its lowercase and
capitalized forms — by the company name. -/
def resolve_references (prompt : PyStr) (history : List HistMsg) : PyStr :=
  if history.isEmpty then prompt
  else
    match findLastCompany history with
    | none => prompt
    | some last_company =>
        let prompt_lower := pyLower prompt
        references.foldl
          (fun prompt ref =>
            if containsSub prompt_lower ref then
              replaceAll (replaceAll prompt ref last_company)
                (pyCapitalize ref) last_company
            else prompt)
          prompt

end ConversationManager

/-!  ## `database.py` — the `accounts` table -/

namespace Database

/-- The structured account-plan payload: the company JSON object, of which
the code reads only the `name` field; the remaining fields ride along as
an opaque association list.  `json.dumps`/`json.loads` round-trips it
unchanged. -/
structure Payload where
  name : PyStr
  fields : List (PyStr × PyStr)
  deriving DecidableEq

/-- Row of the `accounts` table. -/
structure AccountRow where
  id : PyStr
  company_name : PyStr
  payload : Payload
  created_at : Nat
  updated_at : Nat
  deriving DecidableEq

/-- The accounts store, with a logical clock standing for
`datetime.utcnow()`. -/
structure AccountsDb where
  accounts : List AccountRow
  now : Nat
  deriving DecidableEq

/-- The empty accounts store. -/
def AccountsDb.empty : AccountsDb := ⟨[], 0⟩

/-- Model of `database.save_account`: `INSERT ... ON CONFLICT(id) DO
UPDATE SET payload = excluded.payload, updated_at = excluded.updated_at`.
On conflict only `payload` and `updated_at` are written; `company_name`
and `created_at` keep their stored values. -/
def save_account (db : AccountsDb) (id company_name : PyStr) (payload : Payload) :
    AccountsDb :=
  if db.accounts.any (fun r => r.id = id) then
    { accounts := db.accounts.map fun r =>
        if r.id = id then { r with payload := payload, updated_at := db.now } else r,
      now := db.now + 1 }
  else
    { accounts := db.accounts ++
        [{ id := id, company_name := company_name, payload := payload,
           created_at := db.now, updated_at := db.now }],
      now := db.now + 1 }

/-- Model of `database.load_account`: the row with the given id, if any. -/
def load_account (db : AccountsDb) (id : PyStr) : Option AccountRow :=
  db.accounts.find? fun r => r.id = id

end Database

/-!  ## `llm_enhanced.py` — enhanced LLM processing

The generation and web-search collaborators are black boxes (as the spec
treats them); the embedding supplies them as oracles in an `Env`, indexed
by the attempt number for retried calls.  The system-prompt text assembled
from persona/intent instruction fragments and history/research context is
consumed only by the generation oracle, so the embedding does not
materialise it; everything observable (validation, classification, store
writes, retries, error mapping, returned structure) is modelled from the
source. -/

namespace LlmEnhanced

open ConversationManager InputValidator

/-- Configuration read from the environment (`config.py`): the two API
keys the code consults, `None` for unset. -/
structure Config where
  GEMINI_API_KEY : Option PyStr
  PERPLEXITY_API_KEY : Option PyStr

/-- Python truthiness of an optional string. -/
def pyTruthy (o : Option PyStr) : Bool :=
  match o with
  | some s => !s.isEmpty
  | none => false

/-- The LLM instance selected by `get_llm`. -/
inductive Llm
  | sonarPerplexity
  | geminiPro
  deriving DecidableEq

/-- Model of `get_llm`: Perplexity key first, then a Gemini key (routed to
Perplexity when it starts with `pplx-`), else `ValueError`. -/
def get_llm (cfg : Config) : Except PyExc Llm :=
  if pyTruthy cfg.PERPLEXITY_API_KEY then .ok .sonarPerplexity
  else if pyTruthy cfg.GEMINI_API_KEY then
    if pyStartsWith (cfg.GEMINI_API_KEY.getD []) (str "pplx-") then .ok .sonarPerplexity
    else .ok .geminiPro
  else .error ⟨str "ValueError", str "No valid API key found (GEMINI_API_KEY or PERPLEXITY_API_KEY)"⟩

/-- The company JSON object of a generation result; the code reads its
`id` and `name` fields, the rest rides along.  Python's truthiness test
`result.get("company")` conflates a missing key with an empty dict, and
the embedding models both as `none` at the result level. -/
structure CompanyJson where
  id : Option PyStr
  name : Option PyStr
  fields : List (PyStr × PyStr)
  deriving DecidableEq

/-- A parsed generation response (the JSON object produced by
`json.loads` after code-fence stripping); a parse failure is an exception
of the generation oracle. -/
structure GenResult where
  reply : Option PyStr
  company : Option CompanyJson
  suggestions : Option (List PyStr)
  deriving DecidableEq

/-- The dict shape returned by `process_with_llm_enhanced`
(`needs_clarification = none` models the key being absent). -/
structure ChatResult where
  reply : PyStr
  company : Option CompanyJson
  suggestions : List PyStr
  needs_clarification : Option Bool
  deriving DecidableEq

/-- Collaborator oracles and configuration for one request: the content
strings returned by the extraction LLM calls, the search results, and the
parsed generation results, each indexed by attempt number; an `Except`
error is the attempt raising. -/
structure Env where
  config : Config
  extractOracle : Nat → Except PyExc PyStr
  searchOracle : PyStr → Except PyExc (List (PyStr × PyStr))
  genOracle : Nat → Except PyExc GenResult

/-- Model of `generate_help_response`: persona-dependent canned reply and
suggestions, with `company` empty. -/
def generate_help_response (persona : PyStr) : ChatResult :=
  if persona = PERSONA_CONFUSED then
    { reply := str "I\x27m here to help you research companies! Here\x27s what I can do:\n\n1. Research any company - Just say \x27Research Google\x27 or \x27Tell me about Microsoft\x27\n2. Update information - Say \x27Update revenue to $280B\x27\n3. Compare companies - Research multiple companies and I\x27ll help you compare\n\nWhat would you like to start with?",
      company := none,
      suggestions := [str "Research a company (e.g., \x27Research Apple\x27)",
                      str "See an example account plan",
                      str "Learn about comparing companies"],
      needs_clarification := none }
  else if persona = PERSONA_EFFICIENT then
    { reply := str "I research companies, generate account plans, and compare options. What company?",
      company := none,
      suggestions := [str "Research [company name]", str "Compare companies",
                      str "Generate best plan"],
      needs_clarification := none }
  else
    { reply := str "I can help you research companies and create account plans. Just tell me which company you\x27d like to research, or ask me to compare multiple companies!",
      company := none,
      suggestions := [str "Research a specific company", str "Compare multiple companies",
                      str "Update existing information"],
      needs_clarification := none }

/-- Model of `generate_off_topic_response`. -/
def generate_off_topic_response (persona : PyStr) : ChatResult :=
  { reply :=
      if persona = PERSONA_CHATTY then
        str "That\x27s an interesting topic! While I\x27d love to chat about that, I\x27m specifically designed to help with company research and account planning. Is there a company you\x27d like me to research?"
      else
        str "I\x27m focused on helping with company research and account planning. Would you like me to research a company for you?",
    company := none,
    suggestions := [str "Research a company", str "See what I can do",
                    str "Generate an account plan"],
    needs_clarification := none }

/-- Model of `generate_contextual_suggestions`. -/
def generate_contextual_suggestions (intent : PyStr) (companies_list : List CompanyJson)
    (_persona : PyStr) : List PyStr :=
  let suggestions : List PyStr :=
    if intent = INTENT_RESEARCH then
      [str "Update specific information"] ++
        (if companies_list.length ≥ 1 then [str "Research another company to compare"] else [])
    else if intent = INTENT_UPDATE then
      [str "Research another company", str "View current account plan"]
    else []
  let suggestions := suggestions ++
    (if companies_list.length ≥ 2 then [str "Generate best plan from all companies"]
     else if companies_list.length = 1 then [str "Research a competitor"]
     else [str "Research your first company"])
  suggestions.take 3

/-- Postprocessing of the extraction LLM content:
`content.strip().replace('"', '').replace("'", "").replace(".", "")`. -/
def extractPostprocess (content : PyStr) : PyStr :=
  replaceAll (replaceAll (replaceAll (pyStrip content) (str "\"") []) (str "\x27") [])
    (str ".") []

/-- Outcome of the company-name determination step inside
`process_with_llm_enhanced`: either an early return (invalid extracted
name) or the `company_name` string to continue with. -/
def companyNameStep (env : Env) (intent resolved_prompt : PyStr) :
    ChatResult ⊕ PyStr :=
  if intent = INTENT_RESEARCH then
    let extracted_name := (extract_company_name_from_prompt resolved_prompt).getD []
    if !extracted_name.isEmpty then
      let v := validate_company_name extracted_name
      if !v.1 then
        .inl { reply := v.2.1, company := none, suggestions := v.2.2,
               needs_clarification := some true }
      else .inr extracted_name
    else
      match (ErrorHandler.retry_with_exponential_backoff
              (fun k => (env.extractOracle k).map extractPostprocess) 2 1).1 with
      | .ok name => .inr name
      | .error _ => .inr (str "NONE")
  else .inr (str "NONE")

/-- Model of the body of `process_with_llm_enhanced` (the function wrapped
by `@safe_api_call`).  Returns the raised exception or the result dict,
together with the conversation store as left by the call. -/
def process_inner (env : Env) (db : ConvDb) (prompt session_id : PyStr)
    (companies_list : Option (List CompanyJson) := none)
    (_user_preferences : Option (List (PyStr × PyStr)) := none) :
    Except PyExc ChatResult × ConvDb :=
  let companies_list := companies_list.getD []
  let prompt := sanitize_input prompt
  let v := validate_prompt prompt
  if !v.1 then
    (.ok { reply := v.2.1, company := none, suggestions := v.2.2.getD [],
           needs_clarification := some true }, db)
  else
    let history := get_conversation_history db session_id 10
    let resolved_prompt := resolve_references prompt history
    let persona := detect_user_persona history
    let intent := classify_intent resolved_prompt history
    let db := save_conversation_turn db session_id (str "user") prompt
      (some intent) (some persona) none
    if intent = INTENT_HELP then
      let help_response := generate_help_response persona
      let db := save_conversation_turn db session_id (str "assistant")
        help_response.reply (some intent) none none
      (.ok help_response, db)
    else if intent = INTENT_OFF_TOPIC then
      let off_topic_response := generate_off_topic_response persona
      let db := save_conversation_turn db session_id (str "assistant")
        off_topic_response.reply (some intent) none none
      (.ok off_topic_response, db)
    else
      match get_llm env.config with
      | .error e => (.error e, db)
      | .ok _llm =>
        match companyNameStep env intent resolved_prompt with
        | .inl early => (.ok early, db)
        | .inr company_name =>
          let _search_outcome :=
            if !company_name.isEmpty && company_name ≠ str "NONE" &&
                pyLower company_name ≠ str "none" then
              some (env.searchOracle company_name)
            else none
          match (ErrorHandler.retry_with_exponential_backoff env.genOracle 3 1).1 with
          | .ok result =>
              let result :=
                if result.suggestions.isNone then
                  { result with
                    suggestions := some
                      (generate_contextual_suggestions intent companies_list persona) }
                else result
              let metadata : List (PyStr × PyStr) :=
                match result.company with
                | some c =>
                    if pyTruthy c.name then
                      [(str "company_name", c.name.getD []),
                       (str "action",
                        if intent = INTENT_RESEARCH then str "research" else str "update")]
                    else []
                | none => []
              match result.reply with
              | none => (.error ⟨str "KeyError", str "reply"⟩, db)
              | some rep =>
                  let db := save_conversation_turn db session_id (str "assistant") rep
                    (some intent) (some persona) (some metadata)
                  (.ok { reply := rep, company := result.company,
                         suggestions := result.suggestions.getD [],
                         needs_clarification := none }, db)
          | .error e =>
              let error_msg := ErrorHandler.get_user_friendly_error_message e
              let db := save_conversation_turn db session_id (str "assistant") error_msg
                (some (str "error")) none none
              (.ok { reply := error_msg, company := none,
                     suggestions := [str "Try rephrasing your request",
                                     str "Check your API configuration"],
                     needs_clarification := none }, db)

/-- Model of `process_with_llm_enhanced` as exported: the body wrapped by
`@safe_api_call(fallback_response={"reply": "I encountered an error. Please
try again.", "company": {}, "suggestions": []})`, which catches any raised
exception and returns the fallback with `reply` replaced by the mapped
user-friendly message.  The store keeps whatever the body wrote before
raising. -/
def process_with_llm_enhanced (env : Env) (db : ConvDb) (prompt session_id : PyStr)
    (companies_list : Option (List CompanyJson) := none)
    (user_preferences : Option (List (PyStr × PyStr)) := none) :
    ChatResult × ConvDb :=
  match process_inner env db prompt session_id companies_list user_preferences with
  | (.ok r, db) => (r, db)
  | (.error e, db) =>
      ({ reply := ErrorHandler.get_user_friendly_error_message e, company := none,
         suggestions := [], needs_clarification := none }, db)

end LlmEnhanced

/-!  ## Helper lemmas -/

/-- Substring containment bounds the needle's length. -/
theorem containsSub_length_le {hay needle : PyStr}
    (h : containsSub hay needle = true) : needle.length ≤ hay.length := by
  induction hay with
  | nil =>
      simp [containsSub, List.isEmpty_iff] at h
      simp [h]
  | cons c t ih =>
      simp only [containsSub, Bool.or_eq_true] at h
      rcases h with h | h
      · exact (List.isPrefixOf_iff_prefix.mp h).length_le
      · exact le_trans (ih h) (by simp)

/-- A substring as long as the haystack is the haystack. -/
theorem containsSub_eq_of_length {hay needle : PyStr}
    (h : containsSub hay needle = true) (hlen : hay.length ≤ needle.length) :
    hay = needle := by
  induction hay with
  | nil =>
      simp [containsSub, List.isEmpty_iff] at h
      simp [h]
  | cons c t ih =>
      simp only [containsSub, Bool.or_eq_true] at h
      rcases h with h | h
      · exact ((List.isPrefixOf_iff_prefix.mp h).eq_of_length
          (le_antisymm (List.IsPrefix.length_le (List.isPrefixOf_iff_prefix.mp h)) hlen)).symm ▸ rfl
      · have := containsSub_length_le h
        simp only [List.length_cons] at hlen
        omega

/-- Length bound for a match of `A.*B`. -/
theorem reSearchDotStar_length {a b hay : PyStr}
    (h : reSearchDotStar a b hay = true) : a.length + b.length ≤ hay.length := by
  unfold reSearchDotStar at h
  rw [List.any_eq_true] at h
  obtain ⟨i, _, hi⟩ := h
  rw [Bool.and_eq_true] at hi
  obtain ⟨ha, hrest⟩ := hi
  rw [List.any_eq_true] at hrest
  obtain ⟨k, _, hk⟩ := hrest
  rw [Bool.and_eq_true] at hk
  have hb := (List.isPrefixOf_iff_prefix.mp hk.2).length_le
  have ha' := (List.isPrefixOf_iff_prefix.mp ha).length_le
  simp only [List.length_drop] at hb ha'
  omega

/-- Lowercasing preserves length. -/
theorem pyLower_length (s : PyStr) : (pyLower s).length = s.length := by
  simp [pyLower]

/-- Whitespace collapsing does not lengthen the string. -/
theorem collapseWsAux_length_le (b : Bool) (s : PyStr) :
    (InputValidator.collapseWsAux b s).length ≤ s.length := by
  induction s generalizing b with
  | nil => simp [InputValidator.collapseWsAux]
  | cons c t ih =>
      simp only [InputValidator.collapseWsAux]
      split
      · split
        · exact le_trans (ih true) (by simp)
        · simpa using ih true
      · simpa using ih false

/-- Stripping does not lengthen the string. -/
theorem pyStrip_length_le (s : PyStr) : (pyStrip s).length ≤ s.length := by
  unfold pyStrip
  calc ((s.dropWhile isPyWs).reverse.dropWhile isPyWs).reverse.length
      = ((s.dropWhile isPyWs).reverse.dropWhile isPyWs).length := by simp
    _ ≤ (s.dropWhile isPyWs).reverse.length :=
        (List.dropWhile_sublist _).length_le
    _ = (s.dropWhile isPyWs).length := by simp
    _ ≤ s.length := (List.dropWhile_sublist _).length_le

/-- Sanitization does not lengthen the string. -/
theorem sanitize_input_length_le (s : PyStr) :
    (InputValidator.sanitize_input s).length ≤ s.length := by
  unfold InputValidator.sanitize_input
  split
  · simp
  · calc (((pyStrip (InputValidator.collapseWsAux false s)).filter
          (fun c => c.toNat ≥ 32 || c = '\n' || c = '\r' || c = '\t')).take 1000).length
        ≤ ((pyStrip (InputValidator.collapseWsAux false s)).filter
          (fun c => c.toNat ≥ 32 || c = '\n' || c = '\r' || c = '\t')).length :=
          (List.take_sublist _ _).length_le
      _ ≤ (pyStrip (InputValidator.collapseWsAux false s)).length :=
          List.length_filter_le _ _
      _ ≤ (InputValidator.collapseWsAux false s).length := pyStrip_length_le _
      _ ≤ s.length := collapseWsAux_length_le _ _

/-- Containment of a needle of length at least 5 fails in a short haystack. -/
theorem contains_false_of_le {s k : PyStr} (hk : 5 ≤ k.length) (hs : s.length < 5) :
    containsSub s k = false := by
  cases hc : containsSub s k
  · rfl
  · have := containsSub_length_le hc
    omega

/-- A `A.*B` search fails when the haystack is shorter than the two
literals together. -/
theorem reSearchDotStar_false {a b s : PyStr} (h : s.length < a.length + b.length) :
    reSearchDotStar a b s = false := by
  cases hc : reSearchDotStar a b s
  · rfl
  · have := reSearchDotStar_length hc
    omega

/-- Invocation-count bound for the retry loop. -/
theorem retryGo_count_le {α : Type} (func : Nat → Except PyExc α) (base maxD : ℚ) :
    ∀ (n attempt : Nat) (delay : ℚ) (slept : List ℚ),
      (ErrorHandler.retryGo func base maxD n attempt delay slept).2.1 ≤ attempt + n := by
  intro n
  induction n with
  | zero => intro attempt delay slept; simp [ErrorHandler.retryGo]
  | succ n ih =>
      intro attempt delay slept
      simp only [ErrorHandler.retryGo]
      cases hf : func attempt with
      | ok v => simp
      | error e =>
          simp only
          split
          · simp
          · exact le_trans (ih (attempt + 1) _ _) (by omega)

/-- With the default parameters, four invocations that all raise make the
retry helper re-raise the fourth exception after sleeping 1s, 2s and 4s. -/
theorem retry_defaults_all_fail {α : Type} (func : Nat → Except PyExc α)
    (errs : Nat → PyExc) (h : ∀ k, k < 4 → func k = Except.error (errs k)) :
    ErrorHandler.retry_with_exponential_backoff func =
      (Except.error (errs 3), 4, [1, 2, 4]) := by
  have h0 := h 0 (by omega)
  have h1 := h 1 (by omega)
  have h2 := h 2 (by omega)
  have h3 := h 3 (by omega)
  unfold ErrorHandler.retry_with_exponential_backoff
  norm_num [ErrorHandler.retryGo, h0, h1, h2, h3]

/-!  ## The claims -/

/-- Claim C1 (corrected).  The claim states that for the prompt
`"Research Acme Corp"` the extractor returns `"Acme Corp"`.  In fact the
lazy capturing group `([a-zA-Z0-9\s&.]+?)` stops at the first position
where the terminator `(?:\s|$|\.)` can match, which is the space after
`"Acme"`, so the extractor returns `"Acme"`. -/
theorem C1_counterexample :
    InputValidator.extract_company_name_from_prompt (str "Research Acme Corp") ≠
      some (str "Acme Corp") ∧
    InputValidator.extract_company_name_from_prompt (str "Research Acme Corp") =
      some (str "Acme") :=
  ⟨by decide, by decide⟩

/-- Claim C1, amended.  For the prompt `"Research Acme Corp"` with no
history, `extract_company_name_from_prompt` returns `"Acme"` (the capture
is truncated at the first whitespace), and `validate_company_name` accepts
both `"Acme"` and `"Acme Corp"`. -/
theorem C1_theorem :
    InputValidator.extract_company_name_from_prompt (str "Research Acme Corp") =
      some (str "Acme") ∧
    (InputValidator.validate_company_name (str "Acme")).1 = true ∧
    (InputValidator.validate_company_name (str "Acme Corp")).1 = true :=
  ⟨by decide, by decide, by decide⟩

/-- Claim C3 (corrected).  With default parameters a function that always
raises is invoked 4 times (the loop runs `range(max_retries + 1)` with
`max_retries = 3`), not at most 3 times as claimed. -/
theorem C3_counterexample :
    (ErrorHandler.retry_with_exponential_backoff
        (fun _ => (Except.error ⟨str "Exception", str "boom"⟩ : Except PyExc Nat))).2.1 = 4 ∧
    ¬ (ErrorHandler.retry_with_exponential_backoff
        (fun _ => (Except.error ⟨str "Exception", str "boom"⟩ : Except PyExc Nat))).2.1 ≤ 3 :=
  ⟨by decide, by decide⟩

/-- Claim C3, amended.  With default parameters
`retry_with_exponential_backoff` invokes the wrapped function at most 4
times (1 initial attempt plus 3 retries, 1s initial delay, 2x multiplier,
10s cap); when every invocation raises it invokes the function exactly 4
times, sleeps 1s, 2s and 4s between attempts, and re-raises the last
(fourth) exception. -/
theorem C3_theorem :
    (∀ (α : Type) (func : Nat → Except PyExc α),
       (ErrorHandler.retry_with_exponential_backoff func).2.1 ≤ 4) ∧
    (∀ (α : Type) (func : Nat → Except PyExc α) (errs : Nat → PyExc),
       (∀ k, k < 4 → func k = Except.error (errs k)) →
       ErrorHandler.retry_with_exponential_backoff func =
         (Except.error (errs 3), 4, [1, 2, 4])) :=
  ⟨fun _ func => by simpa using retryGo_count_le func 2 10 4 0 1 [],
   fun _ func errs h => retry_defaults_all_fail func errs h⟩

/-- Witness for C3 at a concrete always-raising function. -/
theorem C3_witness :
    ErrorHandler.retry_with_exponential_backoff
        (fun _ => (Except.error ⟨str "Exception", str "network down"⟩ : Except PyExc Nat)) =
      (Except.error ⟨str "Exception", str "network down"⟩, 4, [1, 2, 4]) :=
  C3_theorem.2 Nat _ (fun _ => ⟨str "Exception", str "network down"⟩) (fun _ _ => rfl)

/-- Claim C9 (confirmed).  Given a history of one assistant turn whose
metadata carries `company_name = "Google"` and the prompt
`"Tell me more about it"`, the resolver returns exactly
`"Tell me more about Google"`. -/
theorem C9_theorem :
    ConversationManager.resolve_references (str "Tell me more about it")
      [{ role := str "assistant", content := str "Here is what I found.",
         intent := some (str "research"), persona := none, timestamp := 0,
         metadata := [(str "company_name", str "Google")] }] =
    str "Tell me more about Google" := by decide

/-- Claim C2 (corrected).  Two prompts of length below 5 refute the
universal claim: the empty prompt is rejected by the emptiness check with
the message `"Please provide a message."` and a single suggestion, and the
prompt `"hack"` is rejected by the capability check (which runs before the
ambiguity check) with a capability message and 3 alternative suggestions,
not the "very brief" reason with its 3 clarifying questions. -/
theorem C2_counterexample :
    (str "").length < 5 ∧
    InputValidator.validate_prompt (str "") =
      (false, str "Please provide a message.", some [str "What would you like to know?"]) ∧
    (InputValidator.validate_prompt (str "")).2.1 ≠ str "Your request is very brief." ∧
    (str "hack").length < 5 ∧
    (InputValidator.validate_prompt (str "hack")).2.1 ≠ str "Your request is very brief." :=
  ⟨by decide, by decide, by decide, by decide, by decide⟩

/-- Claim C2, amended.  For every prompt of length below 5 whose sanitized
form is nonempty and is not (case-insensitively) the out-of-scope keyword
`"hack"`, `validate_prompt` returns invalid with exactly the "very brief"
reason and exactly the 3 canned clarifying suggestions. -/
theorem C2_theorem (p : PyStr) (h5 : p.length < 5)
    (hne : InputValidator.sanitize_input p ≠ [])
    (hhack : pyLower (InputValidator.sanitize_input p) ≠ str "hack") :
    InputValidator.validate_prompt p =
      (false, str "Your request is very brief.",
       some [str "What would you like me to help you with?",
             str "Are you looking to research a company?",
             str "Would you like to see what I can do?"]) := by
  have hlen : (InputValidator.sanitize_input p).length < 5 :=
    lt_of_le_of_lt (sanitize_input_length_le p) h5
  set s := InputValidator.sanitize_input p with hs
  have hlenlow : (pyLower s).length < 5 := by rw [pyLower_length]; exact hlen
  have hhackc : containsSub (pyLower s) (str "hack") = false := by
    cases hc : containsSub (pyLower s) (str "hack")
    · rfl
    · refine absurd (containsSub_eq_of_length hc ?_) hhack
      have h4 : (str "hack").length = 4 := by decide
      omega
  have hcap : InputValidator.is_within_capabilities s = (true, [], []) := by
    unfold InputValidator.is_within_capabilities
    have hfind : InputValidator.OUT_OF_SCOPE_KEYWORDS.find?
        (fun k => containsSub (pyLower s) k) = none := by
      rw [List.find?_eq_none]
      intro k hk
      fin_cases hk <;>
        simp only [Bool.not_eq_true] <;>
        first
          | exact hhackc
          | exact contains_false_of_le (by decide) hlenlow
    dsimp only
    rw [hfind]
    dsimp only
    rw [reSearchDotStar_false (by have h13 : (str "predict").length + (str "future").length = 13 := (by decide); omega)]
    rw [contains_false_of_le (by decide) hlenlow, contains_false_of_le (by decide) hlenlow]
    rw [hhackc, contains_false_of_le (by decide) hlenlow, contains_false_of_le (by decide) hlenlow]
    rw [reSearchDotStar_false (by have h12 : (str "personal").length + (str "data").length = 12 := (by decide); omega)]
    rw [reSearchDotStar_false (by have h18 : (str "private").length + (str "information").length = 18 := (by decide); omega)]
    simp
  have hamb : InputValidator.detect_ambiguity s =
      (true, str "Your request is very brief.",
       [str "What would you like me to help you with?",
        str "Are you looking to research a company?",
        str "Would you like to see what I can do?"]) := by
    unfold InputValidator.detect_ambiguity
    dsimp only
    rw [if_pos hlen]
  unfold InputValidator.validate_prompt
  rw [← hs]
  dsimp only
  rw [if_neg (by simpa [List.isEmpty_iff] using hne), hcap, hamb]
  simp

/-- Witness for C2 at the concrete prompt `"abc"`. -/
theorem C2_witness :
    (str "abc").length < 5 ∧
    InputValidator.validate_prompt (str "abc") =
      (false, str "Your request is very brief.",
       some [str "What would you like me to help you with?",
             str "Are you looking to research a company?",
             str "Would you like to see what I can do?"]) :=
  ⟨by decide, C2_theorem (str "abc") (by decide) (by decide) (by decide)⟩

/-- The persona classifier factors through the user-turn subsequence. -/
theorem detect_user_persona_eq_filter (h : List ConversationManager.HistMsg) :
    ConversationManager.detect_user_persona h =
      ConversationManager.personaOfUserMessages
        (h.filter fun m => m.role = str "user") := by
  unfold ConversationManager.detect_user_persona
  split
  · rename_i hemp
    rw [List.isEmpty_iff] at hemp
    subst hemp
    rfl
  · rfl

/-- Claim C6 (confirmed).  `detect_user_persona` is invariant under
inserting or removing non-user turns: two histories with the same
user-role subsequence get the same persona (the source filters
`role == "user"` before computing any metric, and the empty-history guard
also returns `unknown` on user-free histories). -/
theorem C6_theorem (h₁ h₂ : List ConversationManager.HistMsg)
    (hfilter : h₁.filter (fun m => m.role = str "user") =
      h₂.filter (fun m => m.role = str "user")) :
    ConversationManager.detect_user_persona h₁ =
      ConversationManager.detect_user_persona h₂ := by
  rw [detect_user_persona_eq_filter, detect_user_persona_eq_filter, hfilter]

/-- Witness for C6: interleaving two assistant turns around two user turns
does not change the persona. -/
theorem C6_witness :
    ConversationManager.detect_user_persona
      [{ role := str "assistant", content := str "Hello!", intent := none,
         persona := none, timestamp := 0, metadata := [] },
       { role := str "user", content := str "research Google", intent := none,
         persona := none, timestamp := 1, metadata := [] },
       { role := str "assistant", content := str "Done.", intent := none,
         persona := none, timestamp := 2, metadata := [] },
       { role := str "user", content := str "research Apple", intent := none,
         persona := none, timestamp := 3, metadata := [] }] =
    ConversationManager.detect_user_persona
      [{ role := str "user", content := str "research Google", intent := none,
         persona := none, timestamp := 1, metadata := [] },
       { role := str "user", content := str "research Apple", intent := none,
         persona := none, timestamp := 3, metadata := [] }] :=
  C6_theorem _ _ (by decide)

/-- Stored `interaction_count` of a session, `none` when the session
record does not exist. -/
def ConversationManager.interactionCount (db : ConversationManager.ConvDb)
    (session_id : PyStr) : Option Nat :=
  (db.sessions.find? fun s => s.session_id = session_id).map
    fun s => s.interaction_count

/-- Arguments of one `save_conversation_turn` call (besides the session). -/
structure ConversationManager.TurnSpec where
  role : PyStr
  content : PyStr
  intent : Option PyStr := none
  persona : Option PyStr := none
  metadata : Option (List (PyStr × PyStr)) := none
  deriving DecidableEq

/-- Iterated `save_conversation_turn` over a list of turns of one session. -/
def ConversationManager.saveTurns (db : ConversationManager.ConvDb) (session_id : PyStr) :
    List ConversationManager.TurnSpec → ConversationManager.ConvDb
  | [] => db
  | t :: rest =>
      ConversationManager.saveTurns
        (ConversationManager.save_conversation_turn db session_id t.role t.content
          t.intent t.persona t.metadata)
        session_id rest

/-- Behaviour of `find?` on the session upsert's `DO UPDATE` branch: the
update rewrites every matching row in place and preserves session ids, so
the row `find?` sees is the updated first match. -/
theorem find?_map_upsert_session (session_id : PyStr) (clock : Nat) (persona : Option PyStr) :
    ∀ l : List ConversationManager.SessionRow,
      ((l.map fun s =>
          if s.session_id = session_id then
            { s with last_active := clock,
                     interaction_count := s.interaction_count + 1,
                     detected_persona :=
                       ConversationManager.coalescePersona persona s.detected_persona }
          else s).find? fun s => s.session_id = session_id) =
        (l.find? fun s => s.session_id = session_id).map fun s =>
          { s with last_active := clock,
                   interaction_count := s.interaction_count + 1,
                   detected_persona :=
                     ConversationManager.coalescePersona persona s.detected_persona } := by
  intro l
  induction l with
  | nil => rfl
  | cons s t ih =>
      by_cases hs : s.session_id = session_id
      · simp [List.find?_cons, hs]
      · simp [List.find?_cons, hs, ih]

/-- Session-count behaviour of the upsert: the first matching row (the
one `find?` sees) has its count incremented, a missing row is created with
count 1. -/
theorem interactionCount_save (db : ConversationManager.ConvDb)
    (session_id role content : PyStr) (intent persona : Option PyStr)
    (metadata : Option (List (PyStr × PyStr))) :
    ConversationManager.interactionCount
        (ConversationManager.save_conversation_turn db session_id role content
          intent persona metadata) session_id =
      some ((ConversationManager.interactionCount db session_id).getD 0 + 1) := by
  unfold ConversationManager.interactionCount ConversationManager.save_conversation_turn
  dsimp only
  split
  · rename_i hany
    rw [find?_map_upsert_session session_id db.clock persona db.sessions]
    obtain ⟨x, hmem, hx⟩ := List.any_eq_true.mp hany
    cases hfind : db.sessions.find? (fun s => s.session_id = session_id) with
    | none =>
        rw [List.find?_eq_none] at hfind
        exact absurd hx (hfind x hmem)
    | some r => simp
  · rename_i hany
    have hnone : db.sessions.find? (fun s => s.session_id = session_id) = none := by
      rw [List.find?_eq_none]
      intro x hx
      have := List.any_eq_false.mp (Bool.eq_false_iff.mpr hany) x hx
      simpa using this
    rw [List.find?_append, hnone]
    simp [List.find?]

/-- Iterated saves add the number of turns to the session count. -/
theorem interactionCount_saveTurns (session_id : PyStr) :
    ∀ (specs : List ConversationManager.TurnSpec) (db : ConversationManager.ConvDb),
      specs ≠ [] →
      ConversationManager.interactionCount
          (ConversationManager.saveTurns db session_id specs) session_id =
        some ((ConversationManager.interactionCount db session_id).getD 0 + specs.length) := by
  intro specs
  induction specs with
  | nil => intro db h; exact absurd rfl h
  | cons t rest ih =>
      intro db _
      simp only [ConversationManager.saveTurns]
      by_cases hrest : rest = []
      · subst hrest
        simp only [ConversationManager.saveTurns]
        rw [interactionCount_save]
        simp
      · rw [ih _ hrest, interactionCount_save]
        simp only [Option.getD_some, List.length_cons, Option.some.injEq]
        omega

/-- Behaviour of `find?` on the accounts upsert's `DO UPDATE` branch: the
update rewrites `payload` and `updated_at` of every matching row in place
and preserves ids, so the row `find?` sees is the updated first match. -/
theorem find?_map_upsert_account (id : PyStr) (payload : Database.Payload) (now : Nat) :
    ∀ l : List Database.AccountRow,
      ((l.map fun r =>
          if r.id = id then { r with payload := payload, updated_at := now } else r).find?
        fun r => r.id = id) =
        (l.find? fun r => r.id = id).map fun r =>
          { r with payload := payload, updated_at := now } := by
  intro l
  induction l with
  | nil => rfl
  | cons r t ih =>
      by_cases hr : r.id = id
      · simp [List.find?_cons, hr]
      · simp [List.find?_cons, hr, ih]

/-- Claim C8 (corrected).  The claim's invariant `company_name =
payload.name` fails on updates: `save_account`'s `ON CONFLICT` clause
updates only `payload` and `updated_at`, so saving id `"a1"` first with
name `"Acme"` and then with name `"Beta"` (each call passing
`company_name` equal to the payload's name) leaves `company_name = "Acme"`
while `payload.name = "Beta"`. -/
theorem C8_counterexample :
    (Database.load_account
        (Database.save_account
          (Database.save_account Database.AccountsDb.empty (str "a1") (str "Acme")
            ⟨str "Acme", []⟩)
          (str "a1") (str "Beta") ⟨str "Beta", []⟩)
        (str "a1")).map (fun r => (r.company_name, r.payload.name)) =
      some (str "Acme", str "Beta") ∧
    str "Acme" ≠ str "Beta" :=
  ⟨by decide, by decide⟩

/-- Claim C8, amended.  Across `save_account` calls the record's id is
stable (an update is found under the same id and keeps it), the payload
always reflects the latest save, but `company_name` keeps the value passed
at the record's creation: an update to an existing id leaves the stored
`company_name` (and `created_at`) unchanged, so `company_name =
payload.name` holds only while later saves reuse the creation name. -/
theorem C8_theorem :
    (∀ (db : Database.AccountsDb) (id name : PyStr) (payload : Database.Payload),
       Database.load_account db id = none →
       Database.load_account (Database.save_account db id name payload) id =
         some { id := id, company_name := name, payload := payload,
                created_at := db.now, updated_at := db.now }) ∧
    (∀ (db : Database.AccountsDb) (id name : PyStr) (payload : Database.Payload)
       (r : Database.AccountRow),
       Database.load_account db id = some r →
       Database.load_account (Database.save_account db id name payload) id =
         some { r with payload := payload, updated_at := db.now }) ∧
    (∀ (db : Database.AccountsDb) (id name : PyStr) (payload : Database.Payload),
       (Database.load_account (Database.save_account db id name payload) id).map
           (fun r => r.id) = some id) := by
  have hcreate : ∀ (db : Database.AccountsDb) (id name : PyStr) (payload : Database.Payload),
      Database.load_account db id = none →
      Database.load_account (Database.save_account db id name payload) id =
        some { id := id, company_name := name, payload := payload,
               created_at := db.now, updated_at := db.now } := by
    intro db id name payload h
    unfold Database.load_account at h ⊢
    unfold Database.save_account
    rw [if_neg]
    · dsimp only
      rw [List.find?_append, h]
      simp [List.find?]
    · intro hany
      obtain ⟨x, hmem, hx⟩ := List.any_eq_true.mp hany
      rw [List.find?_eq_none] at h
      exact absurd hx (h x hmem)
  have hupdate : ∀ (db : Database.AccountsDb) (id name : PyStr) (payload : Database.Payload)
      (r : Database.AccountRow),
      Database.load_account db id = some r →
      Database.load_account (Database.save_account db id name payload) id =
        some { r with payload := payload, updated_at := db.now } := by
    intro db id name payload r h
    unfold Database.load_account at h ⊢
    unfold Database.save_account
    rw [if_pos]
    · dsimp only
      rw [find?_map_upsert_account, h]
      rfl
    · have hr := List.find?_some h
      exact List.any_eq_true.mpr ⟨r, List.mem_of_find?_eq_some h, by simpa using hr⟩
  exact ⟨hcreate, hupdate, by
    intro db id name payload
    cases h : Database.load_account db id with
    | none => rw [hcreate db id name payload h]; rfl
    | some r =>
        rw [hupdate db id name payload r h]
        have : r.id = id := by
          have hp := List.find?_some h
          simpa using hp
        simp [this]⟩

/-- Witness for C8: an update to an existing id keeps `company_name` and
`created_at` from creation while replacing the payload. -/
theorem C8_witness :
    Database.load_account
        (Database.save_account
          (Database.save_account Database.AccountsDb.empty (str "a1") (str "Acme")
            ⟨str "Acme", []⟩)
          (str "a1") (str "Beta") ⟨str "Beta", []⟩)
        (str "a1") =
      some { id := str "a1", company_name := str "Acme", payload := ⟨str "Beta", []⟩,
             created_at := 0, updated_at := 1 } :=
  C8_theorem.2.1 _ (str "a1") (str "Beta") ⟨str "Beta", []⟩
    { id := str "a1", company_name := str "Acme", payload := ⟨str "Acme", []⟩,
      created_at := 0, updated_at := 0 }
    (by decide)

/-- Well-formedness of the conversation store: rows carry strictly
increasing timestamps in insertion order (SQLite's `CURRENT_TIMESTAMP` is
modelled as a strictly monotonic logical clock), all below the clock.
Every store reachable from `ConvDb.empty` by saves satisfies it. -/
def ConversationManager.ConvDb.WF (db : ConversationManager.ConvDb) : Prop :=
  db.conversations.Pairwise (fun a b => a.timestamp < b.timestamp) ∧
  ∀ r ∈ db.conversations, r.timestamp < db.clock

/-- Inserting an element smaller (under the descending order) than every
element of a list appends it at the end. -/
theorem orderedInsert_append_of_lt (a : ConversationManager.ConvRow) :
    ∀ l : List ConversationManager.ConvRow,
      (∀ b ∈ l, a.timestamp < b.timestamp) →
      l.orderedInsert ConversationManager.tsDesc a = l ++ [a] := by
  intro l
  induction l with
  | nil => intro _; rfl
  | cons b t ih =>
      intro h
      rw [List.orderedInsert]
      rw [if_neg]
      · rw [ih fun x hx => h x (List.mem_cons_of_mem b hx)]
        rfl
      · have := h b (List.mem_cons_self b t)
        unfold ConversationManager.tsDesc
        omega

/-- Sorting a strictly ascending list by descending timestamp reverses it. -/
theorem insertionSort_of_strictAsc :
    ∀ l : List ConversationManager.ConvRow,
      l.Pairwise (fun a b => a.timestamp < b.timestamp) →
      l.insertionSort ConversationManager.tsDesc = l.reverse := by
  intro l
  induction l with
  | nil => intro _; rfl
  | cons a t ih =>
      intro h
      rw [List.insertionSort]
      rw [ih (List.Pairwise.of_cons h)]
      rw [orderedInsert_append_of_lt a t.reverse
        (fun b hb => (List.pairwise_cons.mp h).1 b (List.mem_reverse.mp hb))]
      rw [List.reverse_cons]

/-- Reading a stored metadata value back (`json.loads(row[5]) if row[5]
else {}`) gives the saved mapping, with both "no metadata" and the empty
dict reading back as the empty dict. -/
theorem metadataJson_getD (metadata : Option (List (PyStr × PyStr))) :
    (ConversationManager.metadataJson metadata).getD [] = metadata.getD [] := by
  unfold ConversationManager.metadataJson
  cases metadata with
  | none => rfl
  | some m =>
      cases m with
      | nil => rfl
      | cons a t => rfl

/-- Claim C5 (confirmed).  On a well-formed store, `save_conversation_turn`
followed by `get_conversation_history sid 10` yields a history whose last
(newest) entry is exactly the saved turn — same role, content, intent and
persona, with the metadata mapping read back identically and a turn saved
without metadata reading back with metadata `{}` — and the returned list
is in strictly chronological (oldest-first) order. -/
theorem C5_theorem (db : ConversationManager.ConvDb) (hwf : db.WF)
    (session_id role content : PyStr) (intent persona : Option PyStr)
    (metadata : Option (List (PyStr × PyStr))) :
    (ConversationManager.get_conversation_history
        (ConversationManager.save_conversation_turn db session_id role content
          intent persona metadata)
        session_id 10).getLast? =
      some { role := role, content := content, intent := intent, persona := persona,
             timestamp := db.clock, metadata := metadata.getD [] } ∧
    (ConversationManager.get_conversation_history
        (ConversationManager.save_conversation_turn db session_id role content
          intent persona metadata)
        session_id 10).Pairwise (fun a b => a.timestamp < b.timestamp) := by
  obtain ⟨hpw, hlt⟩ := hwf
  have hfilter :
      (ConversationManager.save_conversation_turn db session_id role content intent persona
          metadata).conversations.filter (fun r => r.session_id = session_id) =
        db.conversations.filter (fun r => r.session_id = session_id) ++
          [{ rowid := db.nextId, session_id := session_id, timestamp := db.clock,
             role := role, content := content, intent := intent, persona := persona,
             metadata := ConversationManager.metadataJson metadata }] := by
    unfold ConversationManager.save_conversation_turn
    dsimp only
    rw [List.filter_append]
    simp
  have hfpw : (db.conversations.filter
      (fun r => r.session_id = session_id)).Pairwise
        (fun a b => a.timestamp < b.timestamp) := hpw.filter _
  have hcross : ∀ x ∈ db.conversations.filter (fun r => r.session_id = session_id),
      x.timestamp < db.clock := fun x hx => hlt x (List.mem_of_mem_filter hx)
  have hpw2 :
      (db.conversations.filter (fun r => r.session_id = session_id) ++
        [({ rowid := db.nextId, session_id := session_id, timestamp := db.clock,
            role := role, content := content, intent := intent, persona := persona,
            metadata := ConversationManager.metadataJson metadata } :
          ConversationManager.ConvRow)]).Pairwise
        (fun a b => a.timestamp < b.timestamp) := by
    rw [List.pairwise_append]
    refine ⟨hfpw, List.pairwise_singleton _ _, ?_⟩
    intro a ha b hb
    rw [List.mem_singleton] at hb
    subst hb
    exact hcross a ha
  have hhist :
      ConversationManager.get_conversation_history
          (ConversationManager.save_conversation_turn db session_id role content intent
            persona metadata) session_id 10 =
        (((db.conversations.filter
            (fun r => r.session_id = session_id)).reverse.take 9).reverse ++
          [({ rowid := db.nextId, session_id := session_id, timestamp := db.clock,
              role := role, content := content, intent := intent, persona := persona,
              metadata := ConversationManager.metadataJson metadata } :
            ConversationManager.ConvRow)]).map
          (fun r : ConversationManager.ConvRow =>
            ({ role := r.role, content := r.content, intent := r.intent,
               persona := r.persona, timestamp := r.timestamp,
               metadata := r.metadata.getD [] } : ConversationManager.HistMsg)) := by
    unfold ConversationManager.get_conversation_history
    dsimp only
    rw [hfilter, insertionSort_of_strictAsc _ hpw2]
    rw [List.reverse_append, List.reverse_singleton, List.singleton_append]
    rw [show (10 : Nat) = 9 + 1 from rfl, List.take_succ_cons]
    rw [List.reverse_cons]
  constructor
  · rw [hhist, List.map_append, List.map_singleton]
    rw [List.getLast?_concat]
    dsimp only
    rw [metadataJson_getD]
  · rw [hhist]
    rw [List.pairwise_map]
    dsimp only
    rw [List.pairwise_append]
    refine ⟨?_, List.pairwise_singleton _ _, ?_⟩
    · rw [List.pairwise_reverse]
      exact (List.pairwise_reverse.mpr hfpw).take
    · intro a ha b hb
      rw [List.mem_singleton] at hb
      subst hb
      have ha' : a ∈ db.conversations.filter (fun r => r.session_id = session_id) := by
        rw [List.mem_reverse] at ha
        exact List.mem_reverse.mp (List.mem_of_mem_take ha)
      exact hcross a ha'

/-- Witness for C5: a turn saved to the empty store reads back as the last
history entry with identical fields and metadata `{}`. -/
theorem C5_witness :
    (ConversationManager.get_conversation_history
        (ConversationManager.save_conversation_turn ConversationManager.ConvDb.empty
          (str "s1") (str "user") (str "hello") (some (str "research")) none none)
        (str "s1") 10).getLast? =
      some { role := str "user", content := str "hello",
             intent := some (str "research"), persona := none, timestamp := 0,
             metadata := [] } ∧
    (ConversationManager.get_conversation_history
        (ConversationManager.save_conversation_turn ConversationManager.ConvDb.empty
          (str "s1") (str "user") (str "hello") (some (str "research")) none none)
        (str "s1") 10).Pairwise (fun a b => a.timestamp < b.timestamp) :=
  C5_theorem ConversationManager.ConvDb.empty ⟨List.Pairwise.nil, fun r hr => absurd hr (by simp [ConversationManager.ConvDb.empty])⟩
    (str "s1") (str "user") (str "hello") (some (str "research")) none none

/-- Claim C10 (confirmed).  When the gate rejects a prompt,
`process_with_llm_enhanced` returns the rejection message, an empty
company, the rejection's suggestions and `needs_clarification = true`,
and the conversation store is returned unchanged — no turn is saved and
the session record is untouched. -/
theorem C10_theorem (env : LlmEnhanced.Env) (db : ConversationManager.ConvDb)
    (prompt session_id : PyStr) (companies_list : Option (List LlmEnhanced.CompanyJson))
    (user_preferences : Option (List (PyStr × PyStr)))
    (hv : (InputValidator.validate_prompt (InputValidator.sanitize_input prompt)).1 = false) :
    LlmEnhanced.process_with_llm_enhanced env db prompt session_id companies_list
        user_preferences =
      ({ reply := (InputValidator.validate_prompt (InputValidator.sanitize_input prompt)).2.1,
         company := none,
         suggestions :=
           ((InputValidator.validate_prompt (InputValidator.sanitize_input prompt)).2.2).getD [],
         needs_clarification := some true }, db) := by
  unfold LlmEnhanced.process_with_llm_enhanced LlmEnhanced.process_inner
  dsimp only
  rw [if_pos (by rw [hv]; rfl)]

/-- Witness for C10: a too-short prompt is rejected and leaves the empty
store untouched. -/
theorem C10_witness :
    LlmEnhanced.process_with_llm_enhanced
        { config := { GEMINI_API_KEY := none, PERPLEXITY_API_KEY := none },
          extractOracle := fun _ => Except.error ⟨str "E", str "e"⟩,
          searchOracle := fun _ => Except.error ⟨str "E", str "e"⟩,
          genOracle := fun _ => Except.error ⟨str "E", str "e"⟩ }
        ConversationManager.ConvDb.empty (str "hi") (str "s1") none none =
      ({ reply := str "Your request is very brief.",
         company := none,
         suggestions := [str "What would you like me to help you with?",
                         str "Are you looking to research a company?",
                         str "Would you like to see what I can do?"],
         needs_clarification := some true }, ConversationManager.ConvDb.empty) :=
  C10_theorem _ ConversationManager.ConvDb.empty (str "hi") (str "s1") none none (by decide)

/-- Company-name determination never returns early when every extracted
name passes validation: whatever the extraction oracle does, the step
continues with some `company_name`. -/
theorem companyNameStep_inr (env : LlmEnhanced.Env) (intent resolved : PyStr)
    (hname : ∀ s, intent = ConversationManager.INTENT_RESEARCH →
      InputValidator.extract_company_name_from_prompt resolved = some s →
      s ≠ [] → (InputValidator.validate_company_name s).1 = true) :
    ∃ cn, LlmEnhanced.companyNameStep env intent resolved = Sum.inr cn := by
  unfold LlmEnhanced.companyNameStep
  by_cases hi : intent = ConversationManager.INTENT_RESEARCH
  · rw [if_pos hi]
    dsimp only
    cases hx : InputValidator.extract_company_name_from_prompt resolved with
    | none =>
        dsimp only [Option.getD]
        rw [if_neg (by decide)]
        cases hr : (ErrorHandler.retry_with_exponential_backoff
            (fun k => (env.extractOracle k).map LlmEnhanced.extractPostprocess) 2 1).1 with
        | ok name => exact ⟨name, rfl⟩
        | error e => exact ⟨str "NONE", rfl⟩
    | some s =>
        dsimp only [Option.getD]
        by_cases hse : s.isEmpty
        · rw [if_neg (by rw [hse]; decide)]
          cases hr : (ErrorHandler.retry_with_exponential_backoff
              (fun k => (env.extractOracle k).map LlmEnhanced.extractPostprocess) 2 1).1 with
          | ok name => exact ⟨name, rfl⟩
          | error e => exact ⟨str "NONE", rfl⟩
        · rw [if_pos (by rw [Bool.eq_false_iff.mpr hse]; rfl)]
          have hval := hname s hi hx (by simpa [List.isEmpty_iff] using hse)
          rw [if_neg (by rw [hval]; simp)]
          exact ⟨s, rfl⟩
  · rw [if_neg hi]
    exact ⟨str "NONE", rfl⟩

/-- Claim C4 (confirmed).  If, on a request that passes the gate and is
not routed to the canned help/off-topic responses, the generation call
raises on every retry attempt (all 4 invocations of the default-parameter
retry), then an assistant turn is saved with intent `"error"` and content
equal to the canned user-friendly message mapped from the last exception,
the returned reply equals that same canned message, and — the canned
messages being a fixed set free of the raised text — the raw exception
text appears in neither. -/
theorem C4_theorem (env : LlmEnhanced.Env) (db : ConversationManager.ConvDb)
    (prompt session_id : PyStr)
    (companies_list : Option (List LlmEnhanced.CompanyJson))
    (user_preferences : Option (List (PyStr × PyStr)))
    (errs : Nat → PyExc)
    (history : List ConversationManager.HistMsg) (resolved persona intent : PyStr)
    (hH : history = ConversationManager.get_conversation_history db session_id 10)
    (hR : resolved = ConversationManager.resolve_references
      (InputValidator.sanitize_input prompt) history)
    (hP : persona = ConversationManager.detect_user_persona history)
    (hI : intent = ConversationManager.classify_intent resolved history)
    (hvalid : (InputValidator.validate_prompt (InputValidator.sanitize_input prompt)).1 = true)
    (hhelp : intent ≠ ConversationManager.INTENT_HELP)
    (hoff : intent ≠ ConversationManager.INTENT_OFF_TOPIC)
    (hllm : ∃ l, LlmEnhanced.get_llm env.config = Except.ok l)
    (hname : ∀ s, intent = ConversationManager.INTENT_RESEARCH →
      InputValidator.extract_company_name_from_prompt resolved = some s →
      s ≠ [] → (InputValidator.validate_company_name s).1 = true)
    (hgen : ∀ k, k < 4 → env.genOracle k = Except.error (errs k))
    (hraw : ∀ c ∈ ErrorHandler.cannedErrorMessages, containsSub c (errs 3).msg = false) :
    LlmEnhanced.process_with_llm_enhanced env db prompt session_id companies_list
        user_preferences =
      ({ reply := ErrorHandler.get_user_friendly_error_message (errs 3),
         company := none,
         suggestions := [str "Try rephrasing your request",
                         str "Check your API configuration"],
         needs_clarification := none },
       ConversationManager.save_conversation_turn
         (ConversationManager.save_conversation_turn db session_id (str "user")
           (InputValidator.sanitize_input prompt) (some intent) (some persona) none)
         session_id (str "assistant")
         (ErrorHandler.get_user_friendly_error_message (errs 3))
         (some (str "error")) none none) ∧
    ErrorHandler.get_user_friendly_error_message (errs 3) ∈
      ErrorHandler.cannedErrorMessages ∧
    containsSub (ErrorHandler.get_user_friendly_error_message (errs 3)) (errs 3).msg =
      false := by
  obtain ⟨l, hl⟩ := hllm
  obtain ⟨cn, hcn⟩ := companyNameStep_inr env intent resolved hname
  have hmem := ErrorHandler.get_user_friendly_error_message_mem_canned (errs 3)
  refine ⟨?_, hmem, hraw _ hmem⟩
  subst hI hP hR hH
  unfold LlmEnhanced.process_with_llm_enhanced LlmEnhanced.process_inner
  dsimp only
  rw [if_neg (by rw [hvalid]; simp)]
  rw [if_neg hhelp, if_neg hoff]
  rw [hl]
  dsimp only
  rw [hcn]
  dsimp only
  rw [retry_defaults_all_fail env.genOracle errs hgen]

/-- Witness for C4: a research prompt on a fresh session whose generation
oracle raises `ValueError("llm exploded badly")` on every attempt ends
with the canned generic apology as both the stored assistant turn and the
reply. -/
theorem C4_witness :
    LlmEnhanced.process_with_llm_enhanced
        { config := { GEMINI_API_KEY := some (str "gkey"), PERPLEXITY_API_KEY := none },
          extractOracle := fun _ => Except.error ⟨str "E", str "x"⟩,
          searchOracle := fun _ => Except.ok [],
          genOracle := fun _ => Except.error ⟨str "ValueError", str "llm exploded badly"⟩ }
        ConversationManager.ConvDb.empty (str "Research Acme") (str "s1") none none =
      ({ reply := ErrorHandler.get_user_friendly_error_message
           ⟨str "ValueError", str "llm exploded badly"⟩,
         company := none,
         suggestions := [str "Try rephrasing your request",
                         str "Check your API configuration"],
         needs_clarification := none },
       ConversationManager.save_conversation_turn
         (ConversationManager.save_conversation_turn ConversationManager.ConvDb.empty
           (str "s1") (str "user") (InputValidator.sanitize_input (str "Research Acme"))
           (some (str "research")) (some (str "unknown")) none)
         (str "s1") (str "assistant")
         (ErrorHandler.get_user_friendly_error_message
           ⟨str "ValueError", str "llm exploded badly"⟩)
         (some (str "error")) none none) ∧
    ErrorHandler.get_user_friendly_error_message
        ⟨str "ValueError", str "llm exploded badly"⟩ ∈
      ErrorHandler.cannedErrorMessages ∧
    containsSub
        (ErrorHandler.get_user_friendly_error_message
          ⟨str "ValueError", str "llm exploded badly"⟩)
        (str "llm exploded badly") =
      false :=
  C4_theorem
    { config := { GEMINI_API_KEY := some (str "gkey"), PERPLEXITY_API_KEY := none },
      extractOracle := fun _ => Except.error ⟨str "E", str "x"⟩,
      searchOracle := fun _ => Except.ok [],
      genOracle := fun _ => Except.error ⟨str "ValueError", str "llm exploded badly"⟩ }
    ConversationManager.ConvDb.empty (str "Research Acme") (str "s1") none none
    (fun _ => ⟨str "ValueError", str "llm exploded badly"⟩)
    [] (str "Research Acme") (str "unknown") (str "research")
    (by decide) (by decide) (by decide) (by decide)
    (by decide) (by decide) (by decide)
    ⟨LlmEnhanced.Llm.geminiPro, by decide⟩
    (fun s _ hx _ => by
      have he : InputValidator.extract_company_name_from_prompt (str "Research Acme") =
          some (str "Acme") := by decide
      rw [he] at hx
      injection hx with hs
      subst hs
      decide)
    (fun _ _ => rfl)
    (by decide)

/-- Claim C7 (confirmed).  Every `save_conversation_turn` call increments
the session record's `interaction_count` by exactly 1 regardless of the
turn's role (creating the record with count 1 on the first write), so
after `n` saves for a session with no prior record and no intervening
clear, `interaction_count` equals `n`, the total number of turns written. -/
theorem C7_theorem :
    (∀ (db : ConversationManager.ConvDb) (session_id role content : PyStr)
       (intent persona : Option PyStr) (metadata : Option (List (PyStr × PyStr))),
       ConversationManager.interactionCount
           (ConversationManager.save_conversation_turn db session_id role content
             intent persona metadata) session_id =
         some ((ConversationManager.interactionCount db session_id).getD 0 + 1)) ∧
    (∀ (db : ConversationManager.ConvDb) (session_id : PyStr)
       (specs : List ConversationManager.TurnSpec),
       ConversationManager.interactionCount db session_id = none →
       specs ≠ [] →
       ConversationManager.interactionCount
           (ConversationManager.saveTurns db session_id specs) session_id =
         some specs.length) := by
  constructor
  · exact interactionCount_save
  · intro db session_id specs hnone hne
    rw [interactionCount_saveTurns session_id specs db hne, hnone]
    simp

/-- Witness for C7: three saves with mixed roles starting from the empty
store give `interaction_count = 3`. -/
theorem C7_witness :
    ConversationManager.interactionCount
        (ConversationManager.saveTurns ConversationManager.ConvDb.empty (str "s1")
          [{ role := str "user", content := str "hello" },
           { role := str "assistant", content := str "hi" },
           { role := str "user", content := str "research Acme" }]) (str "s1") =
      some 3 :=
  C7_theorem.2 ConversationManager.ConvDb.empty (str "s1") _ rfl
    (List.cons_ne_nil _ _)
